import Mathlib

/-!
Shallow embedding of `src/providers/databricks.ts` (the Databricks
chat-completion provider adapter of promptfoo) and proofs about it.

JavaScript conventions embedded explicitly:
- a possibly-absent string field is `Option String`; JS truthiness of a
  string (`""` is falsy) is `strTruthy`;
- the JS `a || b` on strings is `jsOrS` (first truthy operand, else the
  last operand verbatim);
- a possibly-absent number is `Option ℚ`; JS truthiness of a number
  (`0` is falsy) is `numTruthy`; numbers are modelled as exact rationals;
- the JS `a ?? b` (nullish coalescing) on numbers is `Option.getD`;
- the `content` field of a message distinguishes `undefined`, `null`
  and a string, as the source branches on `=== null` vs truthiness;
- process environment and the constructor-supplied `EnvOverrides` map
  are lookup functions `String → Option String` (the overrides map is
  itself optional, mirroring `this.env?`).
-/

abbrev EnvMap := String → Option String

/-- JS truthiness of a string-or-undefined value: `""`, `undefined` falsy. -/
def strTruthy : Option String → Bool
  | some s => s != ""
  | none => false

/-- JS `a || b` on string-or-undefined values: `a` when truthy, else `b`. -/
def jsOrS (a b : Option String) : Option String :=
  if strTruthy a then a else b

/-- JS truthiness of a number-or-undefined value: `0`, `undefined` falsy. -/
def numTruthy : Option ℚ → Bool
  | some q => q != 0
  | none => false

/-- Lookup in the optional `EnvOverrides` map: embeds `this.env?.[key]`. -/
def envGet (env : Option EnvMap) (key : String) : Option String :=
  env.bind (fun m => m key)

/-- A function or tool call carried by a response message, as the source
accesses it: a `name` and a raw `arguments` string. -/
structure FunctionCall where
  name : String
  arguments : String
deriving DecidableEq

/-- The `content` field of a response message: the source distinguishes
`undefined`, explicit `null`, and a string. -/
inductive ContentField
  | undefined
  | null
  | str (s : String)
deriving DecidableEq

/-- `choices[0].message` of a chat-completion response. -/
structure Message where
  content : ContentField
  function_call : Option FunctionCall
  tool_calls : Option (List FunctionCall)
deriving DecidableEq

/-- One element of `choices[0].logprobs.content`. -/
structure LogProbItem where
  token : String
  logprob : ℚ
deriving DecidableEq

/-- `choices[i].logprobs`. -/
structure LogProbInfo where
  content : Option (List LogProbItem)
deriving DecidableEq

/-- One element of the response `choices` array. -/
structure Choice where
  message : Message
  logprobs : Option LogProbInfo
deriving DecidableEq

/-- The response `usage` object; each field may be absent. -/
structure Usage where
  total_tokens : Option ℚ
  prompt_tokens : Option ℚ
  completion_tokens : Option ℚ
deriving DecidableEq

/-- The `error` object a response body may carry
(`{message, type?, code?}` as destructured by `formatDatabricksError`). -/
structure ApiError where
  message : String
  type : Option String
  code : Option String
deriving DecidableEq

/-- The decoded response body (`data`) as the source accesses it:
optional `error`, optional `choices` array, optional `usage`. -/
structure ResponseData where
  error : Option ApiError
  choices : Option (List Choice)
  usage : Option Usage
deriving DecidableEq

/-- Per-token input/output rates of a catalog entry. -/
structure ModelCost where
  input : ℚ
  output : ℚ
deriving DecidableEq

/-- One entry of the static model catalog. -/
structure CatalogEntry where
  id : String
  cost : Option ModelCost
deriving DecidableEq

/-- The static model catalog `DATABRICKS_CHAT_MODELS` (source lines 17-41). -/
def DATABRICKS_CHAT_MODELS : List CatalogEntry :=
  [ { id := "databricks-dbrx-instruct",
      cost := some { input := (0.0008 : ℚ) / 1000, output := (0.0024 : ℚ) / 1000 } },
    { id := "databricks-mixtral-8x7b-instruct",
      cost := some { input := (0.0005 : ℚ) / 1000, output := (0.001 : ℚ) / 1000 } },
    { id := "databricks-meta-llama-3-70b-instruct",
      cost := some { input := (0.0009 : ℚ) / 1000, output := (0.0027 : ℚ) / 1000 } } ]

/-- `DatabricksSharedOptions` (source lines 43-50); `headers` omitted as no
modelled behaviour reads it beyond forwarding. -/
structure DatabricksSharedOptions where
  apiKey : Option String := none
  apiKeyEnvar : Option String := none
  apiHost : Option String := none
  apiBaseUrl : Option String := none
  cost : Option ℚ := none
deriving DecidableEq

/-- `DatabricksCompletionOptions` restricted to the fields the response path
reads: the shared options plus the function-tool callback table, modelled as
an association list from function name to a string-to-string callback. -/
structure DatabricksCompletionOptions extends DatabricksSharedOptions where
  functionToolCallbacks : Option (List (String × (String → String))) := none

/-- `getTokenUsage`'s result: a partial token-usage record, every field
optional (absent fields are simply not set by the source). -/
structure TokenUsage where
  total : Option ℚ := none
  prompt : Option ℚ := none
  completion : Option ℚ := none
  cached : Option ℚ := none
deriving DecidableEq

/-- JS `x || 0` on a number-or-undefined value, as used for the
`prompt_tokens`/`completion_tokens` defaults. -/
def jsNumOr (o : Option ℚ) : ℚ :=
  match o with
  | some p => if p != 0 then p else 0
  | none => 0

/-- `getTokenUsage(data, cached)` (source lines 88-101). -/
def getTokenUsage (data : ResponseData) (cached : Bool) : TokenUsage :=
  match data.usage with
  | some u =>
    if cached then
      { cached := u.total_tokens, total := u.total_tokens }
    else
      { total := u.total_tokens,
        prompt := some (jsNumOr u.prompt_tokens),
        completion := some (jsNumOr u.completion_tokens) }
  | none => {}

/-- `calculateCost(modelName, config, promptTokens, completionTokens)`
(source lines 185-205). -/
def calculateCost (modelName : String) (config : DatabricksSharedOptions)
    (promptTokens completionTokens : Option ℚ) : Option ℚ :=
  if !numTruthy promptTokens || !numTruthy completionTokens then
    none
  else
    match DATABRICKS_CHAT_MODELS.find? (fun m => m.id == modelName) with
    | none => none
    | some model =>
      match model.cost with
      | none => none
      | some cost =>
        let inputCost := config.cost.getD cost.input
        let outputCost := config.cost.getD cost.output
        let total := inputCost * promptTokens.getD 0 + outputCost * completionTokens.getD 0
        if total != 0 then some total else none

/-- `DatabricksGenericProvider.getApiUrlDefault` (source lines 130-132). -/
def DatabricksGenericProvider.getApiUrlDefault : String :=
  "https://cloud.databricks.com/v1"

/-- `DatabricksGenericProvider.getApiUrl` (source lines 134-147), with the
instance state (`this.config`, `this.env`) and `process.env` passed
explicitly. -/
def DatabricksGenericProvider.getApiUrl (config : DatabricksSharedOptions)
    (env : Option EnvMap) (procEnv : EnvMap) : String :=
  let apiHost :=
    jsOrS config.apiHost
      (jsOrS (envGet env "DATABRICKS_API_HOST") (procEnv "DATABRICKS_API_HOST"))
  if strTruthy apiHost then
    "https://" ++ apiHost.getD ""
  else
    (jsOrS config.apiBaseUrl
      (jsOrS (envGet env "DATABRICKS_API_BASE_URL")
        (jsOrS (envGet env "DATABRICKS_BASE_URL")
          (jsOrS (procEnv "DATABRICKS_API_BASE_URL")
            (jsOrS (procEnv "DATABRICKS_BASE_URL")
              (some DatabricksGenericProvider.getApiUrlDefault)))))).getD ""

/-- `DatabricksGenericProvider.getApiKey` (source lines 149-159). -/
def DatabricksGenericProvider.getApiKey (config : DatabricksSharedOptions)
    (env : Option EnvMap) (procEnv : EnvMap) : Option String :=
  jsOrS config.apiKey
    (jsOrS
      (match config.apiKeyEnvar with
       | some envar =>
         if envar != "" then jsOrS (procEnv envar) (envGet env envar) else none
       | none => none)
      (jsOrS (envGet env "DATABRICKS_API_KEY") (procEnv "DATABRICKS_API_KEY")))

/-- `DatabricksGenericProvider.id` (source lines 120-124): the default
identity method, with the instance state passed explicitly. -/
def DatabricksGenericProvider.id (modelName : String)
    (config : DatabricksSharedOptions) : String :=
  if strTruthy (jsOrS config.apiHost config.apiBaseUrl) then
    modelName
  else
    "databricks:" ++ modelName

/-- Quote a string as a JSON string literal (model-level: no escaping). -/
def jsonQuote (s : String) : String := "\"" ++ s ++ "\""

/-- Render a JSON object from named field renderings, dropping absent
(`undefined`) fields as `JSON.stringify` does. -/
def jsonObj (fields : List (String × Option String)) : String :=
  "\x7b" ++
    String.intercalate ", "
      ((fields.filterMap (fun f => f.2.map (fun v => jsonQuote f.1 ++ ": " ++ v)))) ++
  "\x7d"

def jsonOfFunctionCall (f : FunctionCall) : String :=
  jsonObj [("name", some (jsonQuote f.name)), ("arguments", some (jsonQuote f.arguments))]

def jsonOfContent : ContentField → Option String
  | .undefined => none
  | .null => some "null"
  | .str s => some (jsonQuote s)

def jsonOfMessage (m : Message) : String :=
  jsonObj
    [ ("content", jsonOfContent m.content),
      ("function_call", m.function_call.map jsonOfFunctionCall),
      ("tool_calls", m.tool_calls.map (fun ts =>
        "[" ++ String.intercalate ", " (ts.map jsonOfFunctionCall) ++ "]")) ]

def jsonOfChoice (c : Choice) : String :=
  jsonObj
    [ ("message", some (jsonOfMessage c.message)),
      ("logprobs", c.logprobs.map (fun lp =>
        jsonObj [("content", lp.content.map (fun items =>
          "[" ++ String.intercalate ", "
            (items.map (fun i =>
              jsonObj [("token", some (jsonQuote i.token)),
                       ("logprob", some (toString i.logprob))])) ++ "]"))])) ]

def jsonOfUsage (u : Usage) : String :=
  jsonObj
    [ ("total_tokens", u.total_tokens.map toString),
      ("prompt_tokens", u.prompt_tokens.map toString),
      ("completion_tokens", u.completion_tokens.map toString) ]

def jsonOfApiError (e : ApiError) : String :=
  jsonObj
    [ ("message", some (jsonQuote e.message)),
      ("type", e.type.map jsonQuote),
      ("code", e.code.map jsonQuote) ]

/-- Modelled from the spec: `safeJsonStringify` lives in `src/util`, outside
the provided sources; the spec fixes only that the full (pretty-printed,
when requested) serialization of the decoded body is produced. This model
renders the decoded body structure as JSON text; the `prettyPrint` flag is
accepted but the model keeps a single-line rendering. -/
def safeJsonStringify (data : ResponseData) (prettyPrint : Bool) : String :=
  let _ := prettyPrint
  jsonObj
    [ ("error", data.error.map jsonOfApiError),
      ("choices", data.choices.map (fun cs =>
        "[" ++ String.intercalate ", " (cs.map jsonOfChoice) ++ "]")),
      ("usage", data.usage.map jsonOfUsage) ]

/-- `formatDatabricksError(data)` (source lines 171-183). The TS parameter
type guarantees `data.error` is present; `e` is that carried error object. -/
def formatDatabricksError (data : ResponseData) (e : ApiError) : String :=
  let m1 := "API error: " ++ e.message
  let m2 := match e.type with
    | some t => m1 ++ (", Type: " ++ t)
    | none => m1
  let m3 := match e.code with
    | some c => m2 ++ (", Code: " ++ c)
    | none => m2
  m3 ++ ("\n\n" ++ safeJsonStringify data true)

/-- Modelled from the spec: the built-in `JSON.stringify` used in the catch
branch of `callApi` (compact serialization of the raw response body). -/
def jsonStringify (data : ResponseData) : String :=
  safeJsonStringify data false

/-- The value assigned to `output` by `callApi`: a string, a whole message
object, a function-call object, a tool-call array, or JS `undefined`. -/
inductive OutputValue
  | str (s : String)
  | msg (m : Message)
  | fcall (f : FunctionCall)
  | tcalls (ts : List FunctionCall)
  | undefined
deriving DecidableEq

/-- JS truthiness of the message `content` field: `undefined`, `null` and
`""` are falsy, any other string truthy. -/
def contentTruthy : ContentField → Bool
  | .undefined => false
  | .null => false
  | .str s => s != ""

/-- The output-selection branches of `callApi` (source lines 291-298):
whole message when content is truthy and a call is present; the call object
(`function_call || tool_calls`) when content is exactly `null`; the content
value otherwise. -/
def selectOutput (m : Message) : OutputValue :=
  if contentTruthy m.content && (m.function_call.isSome || m.tool_calls.isSome) then
    .msg m
  else if m.content == .null then
    match m.function_call with
    | some f => .fcall f
    | none =>
      match m.tool_calls with
      | some ts => .tcalls ts
      | none => .undefined
  else
    match m.content with
    | .str s => .str s
    | _ => .undefined

/-- The harness-facing result record (`ProviderResponse`): error returns set
only `error`; success returns set the remaining fields. -/
structure ProviderResponse where
  output : Option OutputValue := none
  error : Option String := none
  tokenUsage : Option TokenUsage := none
  cached : Option Bool := none
  logProbs : Option (List ℚ) := none
  cost : Option ℚ := none
deriving DecidableEq

/-- Outcome of one `callApi` invocation: a thrown exception (only the
missing-key check throws) or a returned `ProviderResponse`. -/
inductive Outcome
  | thrown (msg : String)
  | response (r : ProviderResponse)
deriving DecidableEq

/-- One `callApi` invocation's outcome together with how many times the
external `fetchWithCache` collaborator was invoked. -/
structure CallResult where
  outcome : Outcome
  fetchCalls : Nat
deriving DecidableEq

/-- What the external `fetchWithCache` produced: `{data, cached}`. -/
structure FetchOk where
  data : ResponseData
  cached : Bool
deriving DecidableEq

/-- Lookup of `config.functionToolCallbacks[name]` in the modelled callback
table: the first entry with the given name. -/
def lookupToolCb (cbs : List (String × (String → String))) (name : String) :
    Option (String → String) :=
  (cbs.find? (fun p => p.1 == name)).map (fun p => p.2)

/-- The callback loop of `callApi` (source lines 306-325): walks the carried
calls in order; at the first whose name has a registered callback, invokes it
with `message.function_call.arguments` — reading `.arguments` off an absent
`function_call` raises a TypeError, which the model returns as `.error`.
Returns `.ok none` when no call matches. -/
def runToolCbLoop (fcs : List FunctionCall)
    (cbs : List (String × (String → String))) (message : Message) :
    Except String (Option String) :=
  match fcs with
  | [] => .ok none
  | fc :: rest =>
    match lookupToolCb cbs fc.name with
    | some cb =>
      match message.function_call with
      | some mfc => .ok (some (cb mfc.arguments))
      | none =>
        .error "TypeError: Cannot read properties of undefined (reading 'arguments')"
    | none => runToolCbLoop rest cbs message

/-- The `try` block of `DatabricksChatCompletionProvider.callApi`
(source lines 289-339): extract `choices[0].message`, select the output,
map log-probabilities, run the callback dispatch, and assemble the success
response; any field-access failure surfaces as `.error` (the thrown
exception's text), to be wrapped by the catch branch. -/
def chatCompletionParse (modelName : String)
    (config : DatabricksCompletionOptions) (data : ResponseData)
    (cached : Bool) : Except String ProviderResponse :=
  match data.choices with
  | none => .error "TypeError: Cannot read properties of undefined (reading '0')"
  | some [] => .error "TypeError: Cannot read properties of undefined (reading 'message')"
  | some (choice :: _) =>
    let message := choice.message
    let output := selectOutput message
    let logProbs : Option (List ℚ) :=
      choice.logprobs.bind (fun lp => lp.content.map (fun items => items.map (fun i => i.logprob)))
    let tokenUsage := getTokenUsage data cached
    let cost := calculateCost modelName config.toDatabricksSharedOptions
      (data.usage.bind (fun u => u.prompt_tokens))
      (data.usage.bind (fun u => u.completion_tokens))
    let functionCalls : Option (List FunctionCall) :=
      match message.function_call with
      | some fc => some [fc]
      | none => message.tool_calls
    match functionCalls, config.functionToolCallbacks with
    | some fcs, some cbs =>
      match runToolCbLoop fcs cbs message with
      | .ok (some functionResult) =>
        .ok { output := some (.str functionResult), tokenUsage := some tokenUsage,
              cached := some cached, logProbs := logProbs, cost := cost }
      | .ok none =>
        .ok { output := some output, tokenUsage := some tokenUsage,
              cached := some cached, logProbs := logProbs, cost := cost }
      | .error e => .error e
    | _, _ =>
      .ok { output := some output, tokenUsage := some tokenUsage,
            cached := some cached, logProbs := logProbs, cost := cost }

/-- The message of the missing-key configuration error (source lines 231-233). -/
def apiKeyErrorMessage : String :=
  "Databricks API key is not set. Set the DATABRICKS_API_KEY environment variable or add `apiKey` to the provider config."

/-- `DatabricksChatCompletionProvider.callApi` (source lines 225-345), with
instance state and the external collaborators passed explicitly: `fetch` is
what the single `fetchWithCache` call would produce (an exception or
`{data, cached}`); the request body built from the prompt is not modelled,
as no normalization behaviour depends on it. `fetchCalls` counts how many
times the collaborator was consulted. -/
def DatabricksChatCompletionProvider.callApi (modelName : String)
    (config : DatabricksCompletionOptions) (env : Option EnvMap)
    (procEnv : EnvMap) (fetch : Except String FetchOk) : CallResult :=
  if !strTruthy (DatabricksGenericProvider.getApiKey
      config.toDatabricksSharedOptions env procEnv) then
    { outcome := .thrown apiKeyErrorMessage, fetchCalls := 0 }
  else
    match fetch with
    | .error err =>
      { outcome := .response { error := some ("API call error: " ++ err) },
        fetchCalls := 1 }
    | .ok res =>
      match res.data.error with
      | some e =>
        { outcome := .response { error := some (formatDatabricksError res.data e) },
          fetchCalls := 1 }
      | none =>
        match chatCompletionParse modelName config res.data res.cached with
        | .ok r => { outcome := .response r, fetchCalls := 1 }
        | .error exn =>
          { outcome := .response
              { error := some ("API error: " ++ exn ++ ": " ++ jsonStringify res.data) },
            fetchCalls := 1 }

lemma jsOrS_pos (a b : Option String) (h : strTruthy a = true) : jsOrS a b = a := by
  simp [jsOrS, h]

lemma jsOrS_neg (a b : Option String) (h : strTruthy a = false) : jsOrS a b = b := by
  simp [jsOrS, h]

lemma jsNumOr_eq_getD (o : Option ℚ) : jsNumOr o = o.getD 0 := by
  cases o with
  | none => rfl
  | some p =>
    by_cases hp : p = 0 <;> simp [jsNumOr, hp]

/-- Claim C4: with a usage object, a cache hit reports exactly
`cached = total_tokens` and `total = total_tokens` and no prompt/completion
fields; a fresh call reports `total = total_tokens`,
`prompt = prompt_tokens` (default 0) and `completion = completion_tokens`
(default 0); without a usage object nothing is reported. -/
theorem claim_C4_token_usage_normalization (data : ResponseData) (cached : Bool) :
    (data.usage = none → getTokenUsage data cached = {}) ∧
    (∀ u, data.usage = some u → cached = true →
      getTokenUsage data cached = { cached := u.total_tokens, total := u.total_tokens }) ∧
    (∀ u, data.usage = some u → cached = false →
      getTokenUsage data cached =
        { total := u.total_tokens, prompt := some (u.prompt_tokens.getD 0),
          completion := some (u.completion_tokens.getD 0) }) := by
  refine ⟨?_, ?_, ?_⟩
  · intro h
    simp [getTokenUsage, h]
  · intro u hu hc
    subst hc
    simp [getTokenUsage, hu]
  · intro u hu hc
    subst hc
    simp [getTokenUsage, hu, jsNumOr_eq_getD]

theorem claim_C4_token_usage_normalization_witness :
    getTokenUsage { error := none, choices := none, usage := some ⟨some 30, none, none⟩ } true =
      { cached := some 30, total := some 30 } :=
  (claim_C4_token_usage_normalization
    { error := none, choices := none, usage := some ⟨some 30, none, none⟩ } true).2.1
    ⟨some 30, none, none⟩ rfl rfl

/-- Claim C5: cost is undefined when the model is unknown to the catalog,
the entry has no cost, or either token count is missing or zero; otherwise
it is `(override else input rate) * prompt + (override else output rate) *
completion`, a single override replacing both rates, with an exact-zero
result coalesced to undefined; for `databricks-dbrx-instruct` with
1000/1000 tokens and no override the cost is 0.0032. -/
theorem claim_C5_cost_calculation (modelName : String)
    (config : DatabricksSharedOptions) (p c : Option ℚ) :
    (DATABRICKS_CHAT_MODELS.find? (fun m => m.id == modelName) = none →
      calculateCost modelName config p c = none) ∧
    (numTruthy p = false → calculateCost modelName config p c = none) ∧
    (numTruthy c = false → calculateCost modelName config p c = none) ∧
    (∀ entry, DATABRICKS_CHAT_MODELS.find? (fun m => m.id == modelName) = some entry →
      entry.cost = none → calculateCost modelName config p c = none) ∧
    (∀ entry rates pv cv,
      DATABRICKS_CHAT_MODELS.find? (fun m => m.id == modelName) = some entry →
      entry.cost = some rates → p = some pv → pv ≠ 0 → c = some cv → cv ≠ 0 →
      calculateCost modelName config p c =
        (if config.cost.getD rates.input * pv + config.cost.getD rates.output * cv = 0
         then none
         else some (config.cost.getD rates.input * pv + config.cost.getD rates.output * cv))) ∧
    calculateCost "databricks-dbrx-instruct" {} (some 1000) (some 1000) = some (0.0032 : ℚ) := by
  refine ⟨?_, ?_, ?_, ?_, ?_, ?_⟩
  · intro h
    simp only [calculateCost, h]
    split <;> rfl
  · intro h
    simp [calculateCost, h]
  · intro h
    simp [calculateCost, h]
  · intro entry hfind hcost
    simp only [calculateCost, hfind, hcost]
    split <;> rfl
  · intro entry rates pv cv hfind hcost hp hpv hc hcv
    subst hp hc
    have h1 : numTruthy (some pv) = true := by simp [numTruthy, hpv]
    have h2 : numTruthy (some cv) = true := by simp [numTruthy, hcv]
    simp only [calculateCost, hfind, hcost, h1, h2]
    by_cases hz :
        config.cost.getD rates.input * pv + config.cost.getD rates.output * cv = 0 <;>
      simp [hz]
  · norm_num [calculateCost, DATABRICKS_CHAT_MODELS, numTruthy, List.find?]

theorem claim_C5_cost_calculation_witness :
    calculateCost "databricks-mixtral-8x7b-instruct" {} (some 1000) (some 2000) =
      some ((0.0005 : ℚ) + 0.002) := by
  have h := (claim_C5_cost_calculation "databricks-mixtral-8x7b-instruct" {}
    (some 1000) (some 2000)).2.2.2.2.1
    { id := "databricks-mixtral-8x7b-instruct",
      cost := some { input := (0.0005 : ℚ) / 1000, output := (0.001 : ℚ) / 1000 } }
    { input := (0.0005 : ℚ) / 1000, output := (0.001 : ℚ) / 1000 }
    1000 2000 rfl rfl rfl (by norm_num) rfl (by norm_num)
  rw [h]
  norm_num

/-- Claim C7: the default identity is the bare model name when a custom host
or base URL is configured (non-empty), else `"databricks:" + modelName`. -/
theorem claim_C7_identity (modelName : String) (config : DatabricksSharedOptions) :
    ((strTruthy config.apiHost = true ∨ strTruthy config.apiBaseUrl = true) →
      DatabricksGenericProvider.id modelName config = modelName) ∧
    (strTruthy config.apiHost = false → strTruthy config.apiBaseUrl = false →
      DatabricksGenericProvider.id modelName config = "databricks:" ++ modelName) := by
  constructor
  · rintro (h | h)
    · simp [DatabricksGenericProvider.id, jsOrS, h]
    · by_cases hh : strTruthy config.apiHost = true
      · simp [DatabricksGenericProvider.id, jsOrS, hh]
      · simp only [Bool.not_eq_true] at hh
        simp [DatabricksGenericProvider.id, jsOrS, hh, h]
  · intro h1 h2
    simp [DatabricksGenericProvider.id, jsOrS, h1, h2]

theorem claim_C7_identity_witness :
    DatabricksGenericProvider.id "mymodel" { apiHost := some "h.example" } = "mymodel" ∧
    DatabricksGenericProvider.id "mymodel" {} = "databricks:" ++ "mymodel" :=
  ⟨(claim_C7_identity "mymodel" { apiHost := some "h.example" }).1 (Or.inl rfl),
   (claim_C7_identity "mymodel" {}).2 rfl rfl⟩

/-- Claim C2: when no API key resolves from config, named env var, override
map or process environment, the invocation throws the configuration error
and the cached-fetch collaborator is consulted zero times. -/
theorem claim_C2_missing_key_fails_fast (modelName : String)
    (config : DatabricksCompletionOptions) (env : Option EnvMap)
    (procEnv : EnvMap) (fetch : Except String FetchOk)
    (h : strTruthy (DatabricksGenericProvider.getApiKey
      config.toDatabricksSharedOptions env procEnv) = false) :
    DatabricksChatCompletionProvider.callApi modelName config env procEnv fetch =
      { outcome := .thrown apiKeyErrorMessage, fetchCalls := 0 } := by
  simp [DatabricksChatCompletionProvider.callApi, h]

theorem claim_C2_missing_key_fails_fast_witness :
    DatabricksChatCompletionProvider.callApi "databricks-dbrx-instruct" {} none
      (fun _ => none) (.ok ⟨{ error := none, choices := none, usage := none }, false⟩) =
      { outcome := .thrown apiKeyErrorMessage, fetchCalls := 0 } :=
  claim_C2_missing_key_fails_fast "databricks-dbrx-instruct" {} none (fun _ => none)
    (.ok ⟨{ error := none, choices := none, usage := none }, false⟩) rfl

/-- Counterexample to claim C6 as stated: the claimed precedence puts the
per-instance base-URL override (b) before every environment-style source
(c)-(d), so with `apiBaseUrl = "http://x"` configured and only the
constructor override map supplying `DATABRICKS_API_HOST = "h"`, the claim
predicts `"http://x"`; the code resolves the host from the override map
first and returns `"https://h"`. -/
theorem claim_C6_url_precedence_counterexample :
    DatabricksGenericProvider.getApiUrl { apiBaseUrl := some "http://x" }
      (some (fun n => if n = "DATABRICKS_API_HOST" then some "h" else none))
      (fun _ => none) = "https://h" ∧ ("https://h" : String) ≠ "http://x" :=
  ⟨rfl, by decide⟩

/-- Claim C6 (amended): host resolution is itself a precedence chain
(per-instance `apiHost`, else override-map `DATABRICKS_API_HOST`, else
process-env `DATABRICKS_API_HOST`); any resolved host wins and is formatted
`https://{host}`; only when no host resolves does the base-URL chain apply
(per-instance `apiBaseUrl`, else override-map `DATABRICKS_API_BASE_URL`,
else override-map `DATABRICKS_BASE_URL`, else process-env
`DATABRICKS_API_BASE_URL`, else process-env `DATABRICKS_BASE_URL`, else the
hard-coded default); host-style sources always beat base-URL-style ones. -/
theorem claim_C6_url_precedence_amended (config : DatabricksSharedOptions)
    (env : Option EnvMap) (procEnv : EnvMap) :
    (∀ h, config.apiHost = some h → h ≠ "" →
      DatabricksGenericProvider.getApiUrl config env procEnv = "https://" ++ h) ∧
    (strTruthy config.apiHost = false →
      ∀ h, envGet env "DATABRICKS_API_HOST" = some h → h ≠ "" →
      DatabricksGenericProvider.getApiUrl config env procEnv = "https://" ++ h) ∧
    (strTruthy config.apiHost = false →
      strTruthy (envGet env "DATABRICKS_API_HOST") = false →
      ∀ h, procEnv "DATABRICKS_API_HOST" = some h → h ≠ "" →
      DatabricksGenericProvider.getApiUrl config env procEnv = "https://" ++ h) ∧
    (strTruthy config.apiHost = false →
      strTruthy (envGet env "DATABRICKS_API_HOST") = false →
      strTruthy (procEnv "DATABRICKS_API_HOST") = false →
      (∀ b, config.apiBaseUrl = some b → b ≠ "" →
        DatabricksGenericProvider.getApiUrl config env procEnv = b) ∧
      (strTruthy config.apiBaseUrl = false →
        ∀ b, envGet env "DATABRICKS_API_BASE_URL" = some b → b ≠ "" →
        DatabricksGenericProvider.getApiUrl config env procEnv = b) ∧
      (strTruthy config.apiBaseUrl = false →
        strTruthy (envGet env "DATABRICKS_API_BASE_URL") = false →
        ∀ b, envGet env "DATABRICKS_BASE_URL" = some b → b ≠ "" →
        DatabricksGenericProvider.getApiUrl config env procEnv = b) ∧
      (strTruthy config.apiBaseUrl = false →
        strTruthy (envGet env "DATABRICKS_API_BASE_URL") = false →
        strTruthy (envGet env "DATABRICKS_BASE_URL") = false →
        ∀ b, procEnv "DATABRICKS_API_BASE_URL" = some b → b ≠ "" →
        DatabricksGenericProvider.getApiUrl config env procEnv = b) ∧
      (strTruthy config.apiBaseUrl = false →
        strTruthy (envGet env "DATABRICKS_API_BASE_URL") = false →
        strTruthy (envGet env "DATABRICKS_BASE_URL") = false →
        strTruthy (procEnv "DATABRICKS_API_BASE_URL") = false →
        ∀ b, procEnv "DATABRICKS_BASE_URL" = some b → b ≠ "" →
        DatabricksGenericProvider.getApiUrl config env procEnv = b) ∧
      (strTruthy config.apiBaseUrl = false →
        strTruthy (envGet env "DATABRICKS_API_BASE_URL") = false →
        strTruthy (envGet env "DATABRICKS_BASE_URL") = false →
        strTruthy (procEnv "DATABRICKS_API_BASE_URL") = false →
        strTruthy (procEnv "DATABRICKS_BASE_URL") = false →
        DatabricksGenericProvider.getApiUrl config env procEnv =
          "https://cloud.databricks.com/v1")) := by
  refine ⟨?_, ?_, ?_, ?_⟩
  · intro h hh hne
    have hT : strTruthy config.apiHost = true := by rw [hh]; simp [strTruthy, hne]
    simp only [DatabricksGenericProvider.getApiUrl]
    rw [jsOrS_pos _ _ hT, hh]
    simp [strTruthy, hne]
  · intro h1 h hh hne
    have hT : strTruthy (envGet env "DATABRICKS_API_HOST") = true := by
      rw [hh]; simp [strTruthy, hne]
    simp only [DatabricksGenericProvider.getApiUrl]
    rw [jsOrS_neg _ _ h1, jsOrS_pos _ _ hT, hh]
    simp [strTruthy, hne]
  · intro h1 h2 h hh hne
    have hT : strTruthy (procEnv "DATABRICKS_API_HOST") = true := by
      rw [hh]; simp [strTruthy, hne]
    simp only [DatabricksGenericProvider.getApiUrl]
    rw [jsOrS_neg _ _ h1, jsOrS_neg _ _ h2, hh]
    simp [strTruthy, hne]
  · intro h1 h2 h3
    have hHost : jsOrS config.apiHost
        (jsOrS (envGet env "DATABRICKS_API_HOST") (procEnv "DATABRICKS_API_HOST")) =
        procEnv "DATABRICKS_API_HOST" := by
      rw [jsOrS_neg _ _ h1, jsOrS_neg _ _ h2]
    refine ⟨?_, ?_, ?_, ?_, ?_, ?_⟩
    · intro b hb hne
      have hT : strTruthy config.apiBaseUrl = true := by rw [hb]; simp [strTruthy, hne]
      simp only [DatabricksGenericProvider.getApiUrl]
      rw [hHost]
      simp only [h3, Bool.false_eq_true, if_false]
      rw [jsOrS_pos _ _ hT, hb]
      rfl
    · intro b1 b hb hne
      have hT : strTruthy (envGet env "DATABRICKS_API_BASE_URL") = true := by
        rw [hb]; simp [strTruthy, hne]
      simp only [DatabricksGenericProvider.getApiUrl]
      rw [hHost]
      simp only [h3, Bool.false_eq_true, if_false]
      rw [jsOrS_neg _ _ b1, jsOrS_pos _ _ hT, hb]
      rfl
    · intro b1 b2 b hb hne
      have hT : strTruthy (envGet env "DATABRICKS_BASE_URL") = true := by
        rw [hb]; simp [strTruthy, hne]
      simp only [DatabricksGenericProvider.getApiUrl]
      rw [hHost]
      simp only [h3, Bool.false_eq_true, if_false]
      rw [jsOrS_neg _ _ b1, jsOrS_neg _ _ b2, jsOrS_pos _ _ hT, hb]
      rfl
    · intro b1 b2 b3 b hb hne
      have hT : strTruthy (procEnv "DATABRICKS_API_BASE_URL") = true := by
        rw [hb]; simp [strTruthy, hne]
      simp only [DatabricksGenericProvider.getApiUrl]
      rw [hHost]
      simp only [h3, Bool.false_eq_true, if_false]
      rw [jsOrS_neg _ _ b1, jsOrS_neg _ _ b2, jsOrS_neg _ _ b3, jsOrS_pos _ _ hT, hb]
      rfl
    · intro b1 b2 b3 b4 b hb hne
      have hT : strTruthy (procEnv "DATABRICKS_BASE_URL") = true := by
        rw [hb]; simp [strTruthy, hne]
      simp only [DatabricksGenericProvider.getApiUrl]
      rw [hHost]
      simp only [h3, Bool.false_eq_true, if_false]
      rw [jsOrS_neg _ _ b1, jsOrS_neg _ _ b2, jsOrS_neg _ _ b3, jsOrS_neg _ _ b4,
        jsOrS_pos _ _ hT, hb]
      rfl
    · intro b1 b2 b3 b4 b5
      simp only [DatabricksGenericProvider.getApiUrl]
      rw [hHost]
      simp only [h3, Bool.false_eq_true, if_false]
      rw [jsOrS_neg _ _ b1, jsOrS_neg _ _ b2, jsOrS_neg _ _ b3, jsOrS_neg _ _ b4,
        jsOrS_neg _ _ b5]
      rfl

theorem claim_C6_url_precedence_amended_witness :
    DatabricksGenericProvider.getApiUrl { apiHost := some "myhost.example" } none
      (fun _ => none) = "https://" ++ "myhost.example" :=
  (claim_C6_url_precedence_amended { apiHost := some "myhost.example" } none
    (fun _ => none)).1 "myhost.example" rfl (by decide)

/-- `s` contains `t` as a contiguous substring. -/
def strContains (s t : String) : Prop := ∃ a b : String, s = a ++ (t ++ b)

/-- Claim C8: when the decoded body carries an error object, the invocation
returns an error result formatted by `formatDatabricksError`, whose string
contains the error message, the type when present, the code when present,
and the full serialized response body. -/
theorem claim_C8_remote_error_formatting (modelName : String)
    (config : DatabricksCompletionOptions) (env : Option EnvMap)
    (procEnv : EnvMap) (data : ResponseData) (cached : Bool) (e : ApiError)
    (hkey : strTruthy (DatabricksGenericProvider.getApiKey
      config.toDatabricksSharedOptions env procEnv) = true)
    (herr : data.error = some e) :
    (DatabricksChatCompletionProvider.callApi modelName config env procEnv
        (.ok ⟨data, cached⟩)).outcome =
      .response { error := some (formatDatabricksError data e) } ∧
    strContains (formatDatabricksError data e) e.message ∧
    (∀ t, e.type = some t → strContains (formatDatabricksError data e) t) ∧
    (∀ c, e.code = some c → strContains (formatDatabricksError data e) c) ∧
    strContains (formatDatabricksError data e) (safeJsonStringify data true) := by
  have hmain : (DatabricksChatCompletionProvider.callApi modelName config env procEnv
      (.ok ⟨data, cached⟩)).outcome =
      .response { error := some (formatDatabricksError data e) } := by
    simp [DatabricksChatCompletionProvider.callApi, hkey, herr]
  obtain ⟨msg, ty, cd⟩ := e
  refine ⟨hmain, ?_, ?_, ?_, ?_⟩
  · cases ty with
    | none =>
      cases cd with
      | none =>
        exact ⟨"API error: ", "\n\n" ++ safeJsonStringify data true,
          by simp [formatDatabricksError, String.append_assoc]⟩
      | some c =>
        exact ⟨"API error: ",
          ", Code: " ++ (c ++ ("\n\n" ++ safeJsonStringify data true)),
          by simp [formatDatabricksError, String.append_assoc]⟩
    | some t =>
      cases cd with
      | none =>
        exact ⟨"API error: ",
          ", Type: " ++ (t ++ ("\n\n" ++ safeJsonStringify data true)),
          by simp [formatDatabricksError, String.append_assoc]⟩
      | some c =>
        exact ⟨"API error: ",
          ", Type: " ++ (t ++ (", Code: " ++ (c ++ ("\n\n" ++ safeJsonStringify data true)))),
          by simp [formatDatabricksError, String.append_assoc]⟩
  · rintro t hty
    subst hty
    cases cd with
    | none =>
      exact ⟨"API error: " ++ (msg ++ ", Type: "),
        "\n\n" ++ safeJsonStringify data true,
        by simp [formatDatabricksError, String.append_assoc]⟩
    | some c =>
      exact ⟨"API error: " ++ (msg ++ ", Type: "),
        ", Code: " ++ (c ++ ("\n\n" ++ safeJsonStringify data true)),
        by simp [formatDatabricksError, String.append_assoc]⟩
  · rintro c hcd
    subst hcd
    cases ty with
    | none =>
      exact ⟨"API error: " ++ (msg ++ ", Code: "),
        "\n\n" ++ safeJsonStringify data true,
        by simp [formatDatabricksError, String.append_assoc]⟩
    | some t =>
      exact ⟨"API error: " ++ (msg ++ (", Type: " ++ (t ++ ", Code: "))),
        "\n\n" ++ safeJsonStringify data true,
        by simp [formatDatabricksError, String.append_assoc]⟩
  · cases ty with
    | none =>
      cases cd with
      | none =>
        exact ⟨"API error: " ++ (msg ++ "\n\n"), "",
          by simp [formatDatabricksError, String.append_assoc, String.append_empty]⟩
      | some c =>
        exact ⟨"API error: " ++ (msg ++ (", Code: " ++ (c ++ "\n\n"))), "",
          by simp [formatDatabricksError, String.append_assoc, String.append_empty]⟩
    | some t =>
      cases cd with
      | none =>
        exact ⟨"API error: " ++ (msg ++ (", Type: " ++ (t ++ "\n\n"))), "",
          by simp [formatDatabricksError, String.append_assoc, String.append_empty]⟩
      | some c =>
        exact ⟨"API error: " ++
            (msg ++ (", Type: " ++ (t ++ (", Code: " ++ (c ++ "\n\n"))))), "",
          by simp [formatDatabricksError, String.append_assoc, String.append_empty]⟩

/-- The concrete error body of the spec's C8 example. -/
def c8ExampleError : ApiError :=
  { message := "bad request", type := some "invalid_request", code := none }

/-- The concrete response body carrying `c8ExampleError`. -/
def c8ExampleData : ResponseData :=
  { error := some c8ExampleError, choices := none, usage := none }

theorem claim_C8_remote_error_formatting_witness :
    strContains (formatDatabricksError c8ExampleData c8ExampleError) "bad request" ∧
    strContains (formatDatabricksError c8ExampleData c8ExampleError) "invalid_request" := by
  have h := claim_C8_remote_error_formatting "databricks-dbrx-instruct"
    { apiKey := some "k" } none (fun _ => none) c8ExampleData false c8ExampleError
    rfl rfl
  exact ⟨h.2.1, h.2.2.1 "invalid_request" rfl⟩

lemma selectOutput_whole_message (m : Message) (s : String) (hs : m.content = .str s)
    (hne : s ≠ "") (hc : (m.function_call.isSome || m.tool_calls.isSome) = true) :
    selectOutput m = .msg m := by
  simp [selectOutput, contentTruthy, hs, hne, hc]

lemma selectOutput_null_function_call (m : Message) (f : FunctionCall)
    (h : m.content = .null) (hf : m.function_call = some f) :
    selectOutput m = .fcall f := by
  simp [selectOutput, contentTruthy, h, hf]

lemma selectOutput_null_tool_calls (m : Message) (ts : List FunctionCall)
    (h : m.content = .null) (hf : m.function_call = none)
    (ht : m.tool_calls = some ts) :
    selectOutput m = .tcalls ts := by
  simp [selectOutput, contentTruthy, h, hf, ht]

lemma selectOutput_content_str (m : Message) (s : String) (hs : m.content = .str s)
    (hnot : ¬(s ≠ "" ∧ (m.function_call.isSome || m.tool_calls.isSome) = true)) :
    selectOutput m = .str s := by
  by_cases hse : s = ""
  · subst hse
    simp [selectOutput, contentTruthy, hs]
  · have hcalls : (m.function_call.isSome || m.tool_calls.isSome) = false := by
      rcases Bool.eq_false_or_eq_true (m.function_call.isSome || m.tool_calls.isSome) with
        hb | hb
      · exact absurd ⟨hse, hb⟩ hnot
      · exact hb
    simp [selectOutput, contentTruthy, hs, hcalls]

lemma callApi_success_response (modelName : String)
    (config : DatabricksCompletionOptions) (env : Option EnvMap) (procEnv : EnvMap)
    (data : ResponseData) (cached : Bool) (choice : Choice) (rest : List Choice)
    (hkey : strTruthy (DatabricksGenericProvider.getApiKey
      config.toDatabricksSharedOptions env procEnv) = true)
    (herr : data.error = none)
    (hch : data.choices = some (choice :: rest))
    (hcb : config.functionToolCallbacks = none) :
    (DatabricksChatCompletionProvider.callApi modelName config env procEnv
        (.ok ⟨data, cached⟩)).outcome =
      .response
        { output := some (selectOutput choice.message),
          tokenUsage := some (getTokenUsage data cached),
          cached := some cached,
          logProbs := choice.logprobs.bind
            (fun lp => lp.content.map (fun items => items.map (fun i => i.logprob))),
          cost := calculateCost modelName config.toDatabricksSharedOptions
            (data.usage.bind (fun u => u.prompt_tokens))
            (data.usage.bind (fun u => u.completion_tokens)) } := by
  obtain ⟨⟨mc, mfc, mtc⟩, lps⟩ := choice
  cases mfc <;> cases mtc <;>
    simp [DatabricksChatCompletionProvider.callApi, chatCompletionParse, hkey, herr, hch, hcb]

/-- Claim C3: on a successful, non-error, non-callback response the output is
chosen from the first choice's message in a fixed order: whole message when
truthy content and a function/tool call are both present; the function-call
or tool-call object when content is exactly `null`; the content string
otherwise. -/
theorem claim_C3_output_selection (modelName : String)
    (config : DatabricksCompletionOptions) (env : Option EnvMap) (procEnv : EnvMap)
    (data : ResponseData) (cached : Bool) (choice : Choice) (rest : List Choice)
    (hkey : strTruthy (DatabricksGenericProvider.getApiKey
      config.toDatabricksSharedOptions env procEnv) = true)
    (herr : data.error = none)
    (hch : data.choices = some (choice :: rest))
    (hcb : config.functionToolCallbacks = none) :
    ∃ r, (DatabricksChatCompletionProvider.callApi modelName config env procEnv
        (.ok ⟨data, cached⟩)).outcome = .response r ∧
      (∀ s, choice.message.content = .str s → s ≠ "" →
        (choice.message.function_call.isSome || choice.message.tool_calls.isSome) = true →
        r.output = some (.msg choice.message)) ∧
      (∀ f, choice.message.content = .null → choice.message.function_call = some f →
        r.output = some (.fcall f)) ∧
      (∀ ts, choice.message.content = .null → choice.message.function_call = none →
        choice.message.tool_calls = some ts → r.output = some (.tcalls ts)) ∧
      (∀ s, choice.message.content = .str s →
        ¬(s ≠ "" ∧ (choice.message.function_call.isSome ||
            choice.message.tool_calls.isSome) = true) →
        r.output = some (.str s)) := by
  refine ⟨_, callApi_success_response modelName config env procEnv data cached choice rest
    hkey herr hch hcb, ?_, ?_, ?_, ?_⟩
  · intro s hs hne hc
    simp [selectOutput_whole_message choice.message s hs hne hc]
  · intro f h hf
    simp [selectOutput_null_function_call choice.message f h hf]
  · intro ts h hf ht
    simp [selectOutput_null_tool_calls choice.message ts h hf ht]
  · intro s hs hnot
    simp [selectOutput_content_str choice.message s hs hnot]

theorem claim_C3_output_selection_witness :
    ∃ r, (DatabricksChatCompletionProvider.callApi "databricks-dbrx-instruct"
        { apiKey := some "k" } none (fun _ => none)
        (.ok ⟨{ error := none,
                choices := some [{ message := { content := .str "hi",
                                                function_call := none,
                                                tool_calls := none },
                                   logprobs := none }],
                usage := none }, false⟩)).outcome = .response r ∧
      r.output = some (.str "hi") := by
  obtain ⟨r, hr, -, -, -, h4⟩ := claim_C3_output_selection "databricks-dbrx-instruct"
    { apiKey := some "k" } none (fun _ => none)
    { error := none,
      choices := some [{ message := { content := .str "hi", function_call := none,
                                      tool_calls := none },
                         logprobs := none }],
      usage := none } false
    { message := { content := .str "hi", function_call := none, tool_calls := none },
      logprobs := none } [] rfl rfl rfl rfl
  exact ⟨r, hr, h4 "hi" rfl (by simp)⟩

/-- Claim C10: a message whose content is the empty string while a
function/tool call is present takes the content branch — the output is the
empty string, because content presence is decided by JS truthiness. -/
theorem claim_C10_empty_content_truthiness (modelName : String)
    (config : DatabricksCompletionOptions) (env : Option EnvMap) (procEnv : EnvMap)
    (data : ResponseData) (cached : Bool) (choice : Choice) (rest : List Choice)
    (hkey : strTruthy (DatabricksGenericProvider.getApiKey
      config.toDatabricksSharedOptions env procEnv) = true)
    (herr : data.error = none)
    (hch : data.choices = some (choice :: rest))
    (hcb : config.functionToolCallbacks = none)
    (hcont : choice.message.content = .str "")
    (_hcall : (choice.message.function_call.isSome ||
      choice.message.tool_calls.isSome) = true) :
    ∃ r, (DatabricksChatCompletionProvider.callApi modelName config env procEnv
        (.ok ⟨data, cached⟩)).outcome = .response r ∧
      r.output = some (.str "") ∧ r.output ≠ some (.msg choice.message) := by
  refine ⟨_, callApi_success_response modelName config env procEnv data cached choice rest
    hkey herr hch hcb, ?_, ?_⟩
  · simp [selectOutput_content_str choice.message "" hcont (fun h => h.1 rfl)]
  · simp [selectOutput_content_str choice.message "" hcont (fun h => h.1 rfl)]

/-- The concrete message of the C10 witness: empty content with a
function call present. -/
def c10ExampleMessage : Message :=
  { content := .str "", function_call := some ⟨"f", "a"⟩, tool_calls := none }

/-- The concrete response body of the C10 witness. -/
def c10ExampleData : ResponseData :=
  { error := none,
    choices := some [{ message := c10ExampleMessage, logprobs := none }],
    usage := none }

theorem claim_C10_empty_content_truthiness_witness :
    ∃ r, (DatabricksChatCompletionProvider.callApi "databricks-dbrx-instruct"
        { apiKey := some "k" } none (fun _ => none)
        (.ok ⟨c10ExampleData, false⟩)).outcome = .response r ∧
      r.output = some (.str "") ∧ r.output ≠ some (.msg c10ExampleMessage) :=
  claim_C10_empty_content_truthiness "databricks-dbrx-instruct"
    { apiKey := some "k" } none (fun _ => none) c10ExampleData false
    { message := c10ExampleMessage, logprobs := none } [] rfl rfl rfl rfl rfl rfl

lemma chatCompletionParse_ok (modelName : String) (config : DatabricksCompletionOptions)
    (data : ResponseData) (cached : Bool) (r : ProviderResponse)
    (h : chatCompletionParse modelName config data cached = .ok r) :
    r.output.isSome = true ∧ r.error = none := by
  obtain ⟨derr, dchoices, dusage⟩ := data
  rcases dchoices with _ | (_ | ⟨⟨⟨mc, mfc, mtc⟩, lps⟩, rest⟩)
  · simp [chatCompletionParse] at h
  · simp [chatCompletionParse] at h
  · cases hcb : config.functionToolCallbacks with
    | none =>
      cases mfc <;> cases mtc <;>
        · simp [chatCompletionParse, hcb] at h
          subst h
          simp
    | some cbs =>
      cases mfc with
      | some fc =>
        cases hlk : lookupToolCb cbs fc.name with
        | some cb =>
          simp [chatCompletionParse, hcb, runToolCbLoop, hlk] at h
          subst h
          simp
        | none =>
          simp [chatCompletionParse, hcb, runToolCbLoop, hlk] at h
          subst h
          simp
      | none =>
        cases mtc with
        | none =>
          simp [chatCompletionParse, hcb] at h
          subst h
          simp
        | some ts =>
          rcases hr : runToolCbLoop ts cbs ⟨mc, none, some ts⟩ with e | o
          · simp [chatCompletionParse, hcb, hr] at h
          · cases o with
            | none =>
              simp [chatCompletionParse, hcb, hr] at h
              subst h
              simp
            | some s =>
              simp [chatCompletionParse, hcb, hr] at h
              subst h
              simp

/-- Claim C9: every returned result populates exactly one of output and
error; all error paths (transport exception, remote error body, parse
exception) return that uniform shape; the missing-API-key check is the only
path that throws, and what it throws is the configuration error. -/
theorem claim_C9_uniform_result_shape (modelName : String)
    (config : DatabricksCompletionOptions) (env : Option EnvMap)
    (procEnv : EnvMap) (fetch : Except String FetchOk) :
    ((DatabricksChatCompletionProvider.callApi modelName config env procEnv
        fetch).outcome = .thrown apiKeyErrorMessage ↔
      strTruthy (DatabricksGenericProvider.getApiKey
        config.toDatabricksSharedOptions env procEnv) = false) ∧
    (∀ m, (DatabricksChatCompletionProvider.callApi modelName config env procEnv
        fetch).outcome = .thrown m → m = apiKeyErrorMessage) ∧
    (∀ r, (DatabricksChatCompletionProvider.callApi modelName config env procEnv
        fetch).outcome = .response r →
      (r.output.isSome = true ∧ r.error = none) ∨
      (r.output = none ∧ r.error.isSome = true)) := by
  by_cases hk : strTruthy (DatabricksGenericProvider.getApiKey
      config.toDatabricksSharedOptions env procEnv) = false
  · simp [DatabricksChatCompletionProvider.callApi, hk]
  · simp only [Bool.not_eq_false] at hk
    cases fetch with
    | error err => simp [DatabricksChatCompletionProvider.callApi, hk]
    | ok res =>
      cases hde : res.data.error with
      | some e => simp [DatabricksChatCompletionProvider.callApi, hk, hde]
      | none =>
        cases hp : chatCompletionParse modelName config res.data res.cached with
        | ok r0 =>
          have hro := chatCompletionParse_ok modelName config res.data res.cached r0 hp
          simp [DatabricksChatCompletionProvider.callApi, hk, hde, hp, hro.1, hro.2]
        | error exn => simp [DatabricksChatCompletionProvider.callApi, hk, hde, hp]

theorem claim_C9_uniform_result_shape_witness :
    (({ error := some "API call error: boom" } : ProviderResponse).output.isSome = true ∧
      ({ error := some "API call error: boom" } : ProviderResponse).error = none) ∨
    (({ error := some "API call error: boom" } : ProviderResponse).output = none ∧
      ({ error := some "API call error: boom" } : ProviderResponse).error.isSome = true) :=
  (claim_C9_uniform_result_shape "databricks-dbrx-instruct" { apiKey := some "k" }
    none (fun _ => none) (.error "boom")).2.2
    { error := some "API call error: boom" } rfl

/-- The config of the C1 failing input: a function-tool callback table with
an entry for `"lookup"` returning `"42"`. -/
def c1Config : DatabricksCompletionOptions :=
  { apiKey := some "key",
    functionToolCallbacks := some [("lookup", fun _ => "42")] }

/-- The response body of the C1 failing input: the first choice's message
carries a tool call named `"lookup"` and no `function_call`. -/
def c1Data : ResponseData :=
  { error := none,
    choices := some [{ message := { content := .null, function_call := none,
                                    tool_calls := some [⟨"lookup", "\x7b\x7d"⟩] },
                       logprobs := none }],
    usage := none }

/-- The error text the C1 failing input actually produces. -/
def c1ErrorText : String :=
  "API error: TypeError: Cannot read properties of undefined (reading 'arguments'): " ++
    jsonStringify c1Data

/-- Claim C1 (code bug): the config registers a callback for the carried
tool call's name, so per the claim the invocation's output should be the
callback's result `"42"`; the code instead reads
`message.function_call.arguments` inside the tool-call loop, raises a
TypeError (there is no `function_call`), and the invocation returns an
error result with no output. -/
theorem claim_C1_toolcall_arguments_bug :
    (DatabricksChatCompletionProvider.callApi "databricks-dbrx-instruct" c1Config
        none (fun _ => none) (.ok ⟨c1Data, false⟩)).outcome =
      .response { error := some c1ErrorText } ∧
    (lookupToolCb [("lookup", fun _ => "42")] "lookup").isSome = true :=
  ⟨rfl, rfl⟩
